import Mathlib

/-!
Shallow embedding of `src/rig-core/src/agent/dynamic_info.rs`: the dynamic
resolution engine of the agent, consisting of the two resolvers
`computing_context` and `computing_tools`.

Modelling choices:
* Machine effects are made explicit: each resolver returns, besides its
  `Except` result, the ordered list of observable `Event`s it performed
  (index queries, tool-definition requests, missing-tool warnings).  This
  mirrors the strictly sequential `await`-then-proceed execution of the
  Rust code (`stream::iter(..).then(..).try_fold(..)` polls one source at a
  time and short-circuits on the first `Err`).
* External collaborators are parameters of the model: a retrieval index is
  a pair of query functions returning `Except`, a tool is a function from
  the prompt text to a definition, JSON pretty-printing is a pair of
  rendering functions on an abstract payload type.
* `HashMap::new()` (always empty here) is an empty association list;
  the toolset lookup is a first-match association-list lookup.
-/

namespace Rig

/-- Modelled from the spec: the prompt message type is external to the core
(`crate::message::Message`); the core only uses its optional extracted
search string (`rag_text`). -/
structure Message where
  ragText : Option String
deriving DecidableEq, Repr

/-- `Message::rag_text`: the optional searchable text of a prompt. -/
def Message.rag_text (m : Message) : Option String := m.ragText

/-- `crate::vector_store::VectorStoreError`, treated opaquely by the core. -/
inductive VectorStoreError where
  | DatastoreError (msg : String)
deriving DecidableEq, Repr

/-- `crate::completion::CompletionError` as used by this core:
`RequestError` either wraps a plain message (`"Invalid prompt"`) or a
boxed `VectorStoreError`. -/
inductive CompletionError where
  | RequestError : String ⊕ VectorStoreError → CompletionError
deriving DecidableEq, Repr

/-- `crate::completion::Document`: output unit of context resolution.
`additional_props` models the `HashMap<String, Value>` as an association
list (the code only ever builds the empty map). -/
structure Document where
  id : String
  text : String
  additional_props : List (String × String)
deriving DecidableEq, Repr

/-- A retrieval index (`dyn VectorStoreIndexDyn`): `top_n` returns ranked
(rank, identifier, payload) triples, `top_n_ids` ranked (rank, identifier)
pairs; both can fail with a `VectorStoreError`.  `R` is the rank type
(`f64` in the source), `D` the payload type (`serde_json::Value`). -/
structure VectorIndex (R D : Type) where
  topN : String → Nat → Except VectorStoreError (List (R × String × D))
  topNIds : String → Nat → Except VectorStoreError (List (R × String))

/-- Rendering operations on the payload type: `toStringPretty` is
`serde_json::to_string_pretty` (may fail), `toStr` is the payload's
`Display` fallback (`doc.to_string()`). -/
structure PayloadOps (D : Type) where
  toStringPretty : D → Option String
  toStr : D → String

/-- The tool registry (`ToolSet`): association list from tool name to a
definition-producing function (`ToolDyn::definition`, which receives the
prompt text and yields a definition of type `T`). -/
def ToolSet (T : Type) : Type := List (String × (String → T))

/-- `ToolSet::get`: first-match lookup of a tool name. -/
def ToolSet.get {T : Type} : ToolSet T → String → Option (String → T)
  | [], _ => none
  | (k, v) :: rest, name => if k = name then some v else ToolSet.get rest name

/-- The fields of `Agent` read by the two resolvers: the static tool-name
list, the tool registry, and the two ordered `(num_sample, index)` source
lists. -/
structure Agent (R D T : Type) where
  static_tools : List String
  tools : ToolSet T
  dynamic_context : List (Nat × VectorIndex R D)
  dynamic_tools : List (Nat × VectorIndex R D)

/-- Observable effects of one resolver call, in execution order: a
`top_n` query by the `src`-th context source, a `top_n_ids` query by the
`src`-th dynamic-tool source, a tool-definition request, or the
non-fatal missing-tool warning (`tracing::warn!`). -/
inductive Event where
  | topN (src : Nat) (query : String) (n : Nat)
  | topNIds (src : Nat) (query : String) (n : Nat)
  | toolDef (name : String) (query : String)
  | warnMissing (name : String)
deriving DecidableEq, Repr

/-- Rendering of one retrieved item into a `Document`, as in the closure of
`computing_context`: pretty-print the payload when possible, fall back to
its plain string form; the props map is freshly empty. -/
def mkDocument {R D : Type} (ops : PayloadOps D) (item : R × String × D) : Document :=
  { id := item.2.1
    text := (ops.toStringPretty item.2.2).getD (ops.toStr item.2.2)
    additional_props := [] }

/-- The context fan-out of `computing_context`:
`stream::iter(dynamic_context).then(top_n-and-render).try_fold(vec![], extend)`.
Sources are queried strictly in order; the first failing query aborts with
its error, discarding the accumulator; `start` numbers the sources for the
event trace. -/
def contextFanout {R D : Type} (ops : PayloadOps D) (text : String) :
    List (Nat × VectorIndex R D) → Nat → List Document →
    Except VectorStoreError (List Document) × List Event
  | [], _, acc => (.ok acc, [])
  | (num_sample, index) :: rest, start, acc =>
    let ev := Event.topN start text num_sample
    match index.topN text num_sample with
    | .error e => (.error e, [ev])
    | .ok items =>
      let docs := items.map (mkDocument ops)
      let (res, evs) := contextFanout ops text rest (start + 1) (acc ++ docs)
      (res, ev :: evs)

/-- `computing_context`: extract the rag text (failing with the
invalid-prompt error when absent), run the context fan-out, and wrap any
store error into a `CompletionError`. -/
def computing_context {R D T : Type} (ops : PayloadOps D) (agent : Agent R D T)
    (prompt : Message) : Except CompletionError (List Document) × List Event :=
  match prompt.rag_text with
  | none => (.error (.RequestError (.inl "Invalid prompt")), [])
  | some text =>
    let (res, evs) := contextFanout ops text agent.dynamic_context 0 []
    match res with
    | .error e => (.error (.RequestError (.inr e)), evs)
    | .ok docs => (.ok docs, evs)

/-- The static pass of `computing_tools`:
`stream::iter(static_tools).filter_map(lookup-then-definition).collect()`.
A registered name yields its definition (a `toolDef` event), an
unregistered one only a warning. -/
def staticPass {T : Type} (tools : ToolSet T) (text : String) :
    List String → List T × List Event
  | [] => ([], [])
  | name :: rest =>
    let (defs, evs) := staticPass tools text rest
    match ToolSet.get tools name with
    | some tool => (tool text :: defs, Event.toolDef name text :: evs)
    | none => (defs, Event.warnMissing name :: evs)

/-- The per-source body of the dynamic pass's `try_fold`: resolve each
retrieved identifier against the registry, requesting a definition for
registered ones and warning about unregistered ones. -/
def resolveIds {T : Type} (tools : ToolSet T) (text : String) :
    List String → List T × List Event
  | [] => ([], [])
  | id :: rest =>
    match ToolSet.get tools id with
    | some tool =>
      let (defs, evs) := resolveIds tools text rest
      (tool text :: defs, Event.toolDef id text :: evs)
    | none =>
      let (defs, evs) := resolveIds tools text rest
      (defs, Event.warnMissing id :: evs)

/-- The dynamic pass of `computing_tools`:
`stream::iter(dynamic_tools).then(top_n_ids).try_fold(vec![], resolve-each-id)`.
Sources are queried strictly in order; the first failing `top_n_ids`
aborts with its error, discarding the accumulator. -/
def dynamicPass {R D T : Type} (tools : ToolSet T) (text : String) :
    List (Nat × VectorIndex R D) → Nat → List T →
    Except VectorStoreError (List T) × List Event
  | [], _, acc => (.ok acc, [])
  | (num_sample, index) :: rest, start, acc =>
    let ev := Event.topNIds start text num_sample
    match index.topNIds text num_sample with
    | .error e => (.error e, [ev])
    | .ok items =>
      let ids := items.map (fun item => item.2)
      let (defs, evs1) := resolveIds tools text ids
      let (res, evs2) := dynamicPass tools text rest (start + 1) (acc ++ defs)
      (res, ev :: (evs1 ++ evs2))

/-- `computing_tools`: extract the rag text (failing with the
invalid-prompt error when absent), run the static pass, then the dynamic
pass; on success concatenate static results before dynamic results, on a
store error wrap it (discarding the static results). -/
def computing_tools {R D T : Type} (agent : Agent R D T) (prompt : Message) :
    Except CompletionError (List T) × List Event :=
  match prompt.rag_text with
  | none => (.error (.RequestError (.inl "Invalid prompt")), [])
  | some text =>
    let (static_defs, evs1) := staticPass agent.tools text agent.static_tools
    let (res, evs2) := dynamicPass agent.tools text agent.dynamic_tools 0 []
    match res with
    | .error e => (.error (.RequestError (.inr e)), evs1 ++ evs2)
    | .ok dynamic_defs => (.ok (static_defs ++ dynamic_defs), evs1 ++ evs2)

/-- The batch a context source returns for `text` when its query succeeds
(`[]` is never consulted in the failing case by the theorems below). -/
def okBatch {R D : Type} (text : String) (src : Nat × VectorIndex R D) :
    List (R × String × D) :=
  match src.2.topN text src.1 with
  | .ok items => items
  | .error _ => []

/-- The ranked identifier batch a dynamic-tool source returns for `text`
when its query succeeds. -/
def okIdsRaw {R D : Type} (text : String) (src : Nat × VectorIndex R D) :
    List (R × String) :=
  match src.2.topNIds text src.1 with
  | .ok items => items
  | .error _ => []

/-- The identifier list a dynamic-tool source returns for `text` when its
query succeeds. -/
def okIds {R D : Type} (text : String) (src : Nat × VectorIndex R D) :
    List String :=
  (okIdsRaw text src).map (fun item => item.2)

/-- The definitions of the found static tools, in static-list order. -/
def foundStatic {T : Type} (tools : ToolSet T) (text : String)
    (names : List String) : List T :=
  names.filterMap (fun name => (ToolSet.get tools name).map (fun tool => tool text))

/-- The definitions of the found dynamically retrieved tools, in
dynamic-source-then-rank order. -/
def foundDynamic {R D T : Type} (tools : ToolSet T) (text : String)
    (srcs : List (Nat × VectorIndex R D)) : List T :=
  (srcs.map (fun src =>
    (okIds text src).filterMap
      (fun id => (ToolSet.get tools id).map (fun tool => tool text)))).flatten

/-- The `top_n` query events that a list of context sources gives rise to,
numbered from `start`. -/
def topNTrace {R D : Type} (text : String) :
    List (Nat × VectorIndex R D) → Nat → List Event
  | [], _ => []
  | (num_sample, _) :: rest, start =>
    Event.topN start text num_sample :: topNTrace text rest (start + 1)

/-- The full event trace of a succeeding dynamic-tool pass, numbered from
`start`: each source's `top_n_ids` query followed by the per-identifier
resolution events of its batch. -/
def dynToolsTrace {R D T : Type} (tools : ToolSet T) (text : String) :
    List (Nat × VectorIndex R D) → Nat → List Event
  | [], _ => []
  | (num_sample, index) :: rest, start =>
    Event.topNIds start text num_sample ::
      ((resolveIds tools text (okIds text (num_sample, index))).2 ++
        dynToolsTrace tools text rest (start + 1))

/-- Erase the rank component of a `top_n` batch, keeping (identifier,
payload) in order. -/
def eraseRank {R D : Type} (items : List (R × String × D)) : List (String × D) :=
  items.map (fun item => item.2)

/-- Erase the rank component of a `top_n_ids` batch, keeping identifiers in
order. -/
def eraseRankIds {R : Type} (items : List (R × String)) : List String :=
  items.map (fun item => item.2)

/-- Two retrieval sources that agree on the configured sample count and,
for every query, on the rank-erased responses of both query kinds: their
index answers may differ only in the rank values. -/
def SameButRank {R D : Type} (s t : Nat × VectorIndex R D) : Prop :=
  s.1 = t.1 ∧
  (∀ q n, (s.2.topN q n).map eraseRank = (t.2.topN q n).map eraseRank) ∧
  (∀ q n, (s.2.topNIds q n).map eraseRankIds = (t.2.topNIds q n).map eraseRankIds)

/-- Concrete payload rendering for closed instances: pretty-printing always
succeeds by prefixing the payload. -/
def opsEx : PayloadOps String :=
  { toStringPretty := fun d => some ("pretty " ++ d), toStr := fun d => d }

/-- Concrete index answering every query with a fixed successful batch. -/
def idxOk : VectorIndex Nat String :=
  { topN := fun _ _ => .ok [(1, "a", "pa"), (2, "b", "pb")]
    topNIds := fun _ _ => .ok [(1, "ta"), (2, "tb")] }

/-- The same index contents as `idxOk` with different rank values. -/
def idxOk7 : VectorIndex Nat String :=
  { topN := fun _ _ => .ok [(7, "a", "pa"), (9, "b", "pb")]
    topNIds := fun _ _ => .ok [(7, "ta"), (9, "tb")] }

/-- Concrete index failing every query. -/
def idxBad : VectorIndex Nat String :=
  { topN := fun _ _ => .error (.DatastoreError "boom")
    topNIds := fun _ _ => .error (.DatastoreError "boom") }

/-- Concrete registry with two tools; `"tb"` and `"ghost"` are absent. -/
def toolsEx : ToolSet String :=
  [("ta", fun q => "defA " ++ q), ("calc", fun _ => "defCalc")]

end Rig

namespace Rig

/-- `okIds` is the rank-erased form of `okIdsRaw`. -/
theorem okIds_unfold {R D : Type} (text : String) (src : Nat × VectorIndex R D) :
    (okIdsRaw text src).map (fun item => item.2) = okIds text src := rfl

/-- The static pass records a missing-tool warning for an unregistered
name wherever it occurs in the static list. -/
theorem staticPass_warn {T : Type} (tools : ToolSet T) (text bad : String)
    (hbad : ToolSet.get tools bad = none) :
    ∀ pre post : List String,
      Event.warnMissing bad ∈ (staticPass tools text (pre ++ bad :: post)).2
  | [], post => by simp [staticPass, hbad]
  | name :: pre, post => by
    have ih := staticPass_warn tools text bad hbad pre post
    cases hget : ToolSet.get tools name <;>
      simp [staticPass, List.cons_append, hget, ih]

/-- Identifier resolution records a missing-tool warning for an
unregistered identifier wherever it occurs in the identifier list. -/
theorem resolveIds_warn {T : Type} (tools : ToolSet T) (text bad : String)
    (hbad : ToolSet.get tools bad = none) :
    ∀ ids1 ids2 : List String,
      Event.warnMissing bad ∈ (resolveIds tools text (ids1 ++ bad :: ids2)).2
  | [], ids2 => by simp [resolveIds, hbad]
  | id :: ids1, ids2 => by
    have ih := resolveIds_warn tools text bad hbad ids1 ids2
    cases hget : ToolSet.get tools id <;>
      simp [resolveIds, List.cons_append, hget, ih]

/-- Rendering a batch only reads the identifier and payload of each item:
it factors through rank erasure. -/
theorem map_mkDocument {R D : Type} (ops : PayloadOps D)
    (items : List (R × String × D)) :
    items.map (mkDocument ops) =
      (eraseRank items).map (fun p =>
        { id := p.1
          text := (ops.toStringPretty p.2).getD (ops.toStr p.2)
          additional_props := [] }) := by
  simp [eraseRank, List.map_map, mkDocument, Function.comp]

/-- The context fan-out gives identical results and traces on two source
lists that pairwise differ only in rank values. -/
theorem contextFanout_congr {R D : Type} (ops : PayloadOps D) (text : String)
    {srcs srcs' : List (Nat × VectorIndex R D)}
    (h : List.Forall₂ SameButRank srcs srcs') :
    ∀ (start : Nat) (acc : List Document),
      contextFanout ops text srcs start acc = contextFanout ops text srcs' start acc := by
  induction h with
  | nil => intro start acc; rfl
  | cons hrel htail ih =>
    rename_i a b l₁ l₂
    intro start acc
    obtain ⟨n, idx⟩ := a
    obtain ⟨n', idx'⟩ := b
    obtain ⟨h1, h2, h3⟩ := hrel
    simp only at h1
    subst h1
    have htop := h2 text n
    simp only [contextFanout]
    cases ha : idx.topN text n with
    | error e =>
      cases hb : idx'.topN text n with
      | error e' =>
        rw [ha, hb] at htop
        simp only [Except.map, Except.error.injEq] at htop
        simp [htop]
      | ok items' =>
        rw [ha, hb] at htop
        simp [Except.map] at htop
    | ok items =>
      cases hb : idx'.topN text n with
      | error e' =>
        rw [ha, hb] at htop
        simp [Except.map] at htop
      | ok items' =>
        rw [ha, hb] at htop
        simp only [Except.map, Except.ok.injEq] at htop
        have hdocs : items.map (mkDocument ops) = items'.map (mkDocument ops) := by
          rw [map_mkDocument, map_mkDocument, htop]
        simp [hdocs, ih (start + 1) (acc ++ items'.map (mkDocument ops))]

/-- The dynamic-tool pass gives identical results and traces on two source
lists that pairwise differ only in rank values. -/
theorem dynamicPass_congr {R D T : Type} (tools : ToolSet T) (text : String)
    {srcs srcs' : List (Nat × VectorIndex R D)}
    (h : List.Forall₂ SameButRank srcs srcs') :
    ∀ (start : Nat) (acc : List T),
      dynamicPass tools text srcs start acc = dynamicPass tools text srcs' start acc := by
  induction h with
  | nil => intro start acc; rfl
  | cons hrel htail ih =>
    rename_i a b l₁ l₂
    intro start acc
    obtain ⟨n, idx⟩ := a
    obtain ⟨n', idx'⟩ := b
    obtain ⟨h1, h2, h3⟩ := hrel
    simp only at h1
    subst h1
    have hids := h3 text n
    simp only [dynamicPass]
    cases ha : idx.topNIds text n with
    | error e =>
      cases hb : idx'.topNIds text n with
      | error e' =>
        rw [ha, hb] at hids
        simp only [Except.map, Except.error.injEq] at hids
        simp [hids]
      | ok items' =>
        rw [ha, hb] at hids
        simp [Except.map] at hids
    | ok items =>
      cases hb : idx'.topNIds text n with
      | error e' =>
        rw [ha, hb] at hids
        simp [Except.map] at hids
      | ok items' =>
        rw [ha, hb] at hids
        simp only [Except.map, Except.ok.injEq, eraseRankIds] at hids
        simp [hids, ih (start + 1)]

/-- When every source in the list answers its `top_n` query, the context
fan-out returns the accumulator followed by each source's rendered batch in
source order, and the trace is one `top_n` query per source in order. -/
theorem contextFanout_ok {R D : Type} (ops : PayloadOps D) (text : String) :
    ∀ (srcs : List (Nat × VectorIndex R D)) (start : Nat) (acc : List Document),
      (∀ s ∈ srcs, s.2.topN text s.1 = .ok (okBatch text s)) →
      contextFanout ops text srcs start acc =
        (.ok (acc ++ (srcs.map (fun s => (okBatch text s).map (mkDocument ops))).flatten),
         topNTrace text srcs start)
  | [], start, acc, _ => by simp [contextFanout, topNTrace]
  | (num_sample, index) :: rest, start, acc, h => by
    have hs : index.topN text num_sample = .ok (okBatch text (num_sample, index)) :=
      h (num_sample, index) (by simp)
    have ih := contextFanout_ok ops text rest (start + 1)
      (acc ++ (okBatch text (num_sample, index)).map (mkDocument ops))
      (fun s hmem => h s (List.mem_cons_of_mem _ hmem))
    simp [contextFanout, hs, ih, topNTrace, List.append_assoc]

/-- When every source before a failing source answers its `top_n` query and
that source's query fails with `e`, the context fan-out returns exactly
`e`, discarding the accumulator, and the trace stops at the failing query:
no later source is queried. -/
theorem contextFanout_err {R D : Type} (ops : PayloadOps D) (text : String)
    (num_sample : Nat) (index : VectorIndex R D) (e : VectorStoreError)
    (hfail : index.topN text num_sample = .error e) :
    ∀ (pre post : List (Nat × VectorIndex R D)) (start : Nat) (acc : List Document),
      (∀ s ∈ pre, s.2.topN text s.1 = .ok (okBatch text s)) →
      contextFanout ops text (pre ++ (num_sample, index) :: post) start acc =
        (.error e, topNTrace text pre start ++ [Event.topN (start + pre.length) text num_sample])
  | [], _, start, acc, _ => by simp [contextFanout, hfail, topNTrace]
  | (m, j) :: pre, post, start, acc, h => by
    have hs : j.topN text m = .ok (okBatch text (m, j)) := h (m, j) (by simp)
    have ih := contextFanout_err ops text num_sample index e hfail pre post (start + 1)
      (acc ++ (okBatch text (m, j)).map (mkDocument ops))
      (fun s hmem => h s (List.mem_cons_of_mem _ hmem))
    have harith : start + 1 + pre.length = start + (pre.length + 1) := by omega
    simp [List.cons_append, contextFanout, hs, ih, harith, topNTrace]

/-- The static pass returns exactly the definitions of the found static
tools, in static-list order. -/
theorem staticPass_fst {T : Type} (tools : ToolSet T) (text : String) :
    ∀ names : List String,
      (staticPass tools text names).1 = foundStatic tools text names
  | [] => by simp [staticPass, foundStatic]
  | name :: rest => by
    have ih := staticPass_fst tools text rest
    cases hget : ToolSet.get tools name <;>
      simp [staticPass, foundStatic, hget, ih]

/-- Per-identifier resolution returns exactly the definitions of the
registered identifiers, in identifier order. -/
theorem resolveIds_fst {T : Type} (tools : ToolSet T) (text : String) :
    ∀ ids : List String,
      (resolveIds tools text ids).1 =
        ids.filterMap (fun id => (ToolSet.get tools id).map (fun tool => tool text))
  | [] => by simp [resolveIds]
  | id :: rest => by
    have ih := resolveIds_fst tools text rest
    cases hget : ToolSet.get tools id <;> simp [resolveIds, hget, ih]

/-- When every dynamic-tool source answers its `top_n_ids` query, the
dynamic pass returns the accumulator followed by each source's resolved
definitions in source-then-rank order, with the interleaved trace. -/
theorem dynamicPass_ok {R D T : Type} (tools : ToolSet T) (text : String) :
    ∀ (srcs : List (Nat × VectorIndex R D)) (start : Nat) (acc : List T),
      (∀ s ∈ srcs, s.2.topNIds text s.1 = .ok (okIdsRaw text s)) →
      dynamicPass tools text srcs start acc =
        (.ok (acc ++ (srcs.map (fun s => (resolveIds tools text (okIds text s)).1)).flatten),
         dynToolsTrace tools text srcs start)
  | [], start, acc, _ => by simp [dynamicPass, dynToolsTrace]
  | (num_sample, index) :: rest, start, acc, h => by
    have hs : index.topNIds text num_sample = .ok (okIdsRaw text (num_sample, index)) :=
      h (num_sample, index) (by simp)
    have ih := dynamicPass_ok tools text rest (start + 1)
      (acc ++ (resolveIds tools text (okIds text (num_sample, index))).1)
      (fun s hmem => h s (List.mem_cons_of_mem _ hmem))
    simp [dynamicPass, hs, okIds_unfold, ih, dynToolsTrace, List.append_assoc]

/-- When every dynamic-tool source before a failing source answers its
`top_n_ids` query and that source's query fails with `e`, the dynamic pass
returns exactly `e`, discarding the accumulator, and its trace stops at
the failing query: no later source is queried. -/
theorem dynamicPass_err {R D T : Type} (tools : ToolSet T) (text : String)
    (num_sample : Nat) (index : VectorIndex R D) (e : VectorStoreError)
    (hfail : index.topNIds text num_sample = .error e) :
    ∀ (pre post : List (Nat × VectorIndex R D)) (start : Nat) (acc : List T),
      (∀ s ∈ pre, s.2.topNIds text s.1 = .ok (okIdsRaw text s)) →
      dynamicPass tools text (pre ++ (num_sample, index) :: post) start acc =
        (.error e,
         dynToolsTrace tools text pre start ++
           [Event.topNIds (start + pre.length) text num_sample])
  | [], _, start, acc, _ => by simp [dynamicPass, hfail, dynToolsTrace]
  | (m, j) :: pre, post, start, acc, h => by
    have hs : j.topNIds text m = .ok (okIdsRaw text (m, j)) := h (m, j) (by simp)
    have ih := dynamicPass_err tools text num_sample index e hfail pre post (start + 1)
      (acc ++ (resolveIds tools text (okIds text (m, j))).1)
      (fun s hmem => h s (List.mem_cons_of_mem _ hmem))
    have harith : start + 1 + pre.length = start + (pre.length + 1) := by omega
    simp [List.cons_append, dynamicPass, hs, okIds_unfold, ih, harith, dynToolsTrace]

/-- Claim C1: fail-fast on source failure.  If a context source's `top_n`
query fails (all earlier sources succeeding), `computing_context` returns
the single wrapped error — partial results from earlier sources are
discarded, the trace shows exactly one query per earlier source plus the
failing one, and no later source is queried; likewise for a dynamic-tool
source's `top_n_ids` failure in `computing_tools`.  No partially populated
output sequence is ever returned. -/
theorem c1_fail_fast {R D T : Type} (ops : PayloadOps D)
    (agentA agentB : Agent R D T) (prompt : Message) (text : String)
    (hrag : prompt.rag_text = some text)
    (nA : Nat) (idxA : VectorIndex R D) (eA : VectorStoreError)
    (preA postA : List (Nat × VectorIndex R D))
    (hsplitA : agentA.dynamic_context = preA ++ (nA, idxA) :: postA)
    (hpreA : ∀ s ∈ preA, s.2.topN text s.1 = .ok (okBatch text s))
    (hfailA : idxA.topN text nA = .error eA)
    (nB : Nat) (idxB : VectorIndex R D) (eB : VectorStoreError)
    (preB postB : List (Nat × VectorIndex R D))
    (hsplitB : agentB.dynamic_tools = preB ++ (nB, idxB) :: postB)
    (hpreB : ∀ s ∈ preB, s.2.topNIds text s.1 = .ok (okIdsRaw text s))
    (hfailB : idxB.topNIds text nB = .error eB) :
    computing_context ops agentA prompt =
      (.error (.RequestError (.inr eA)),
       topNTrace text preA 0 ++ [Event.topN preA.length text nA]) ∧
    computing_tools agentB prompt =
      (.error (.RequestError (.inr eB)),
       (staticPass agentB.tools text agentB.static_tools).2 ++
         (dynToolsTrace agentB.tools text preB 0 ++
           [Event.topNIds preB.length text nB])) := by
  constructor
  · have h := contextFanout_err ops text nA idxA eA hfailA preA postA 0 [] hpreA
    simp [computing_context, hrag, hsplitA, h]
  · have h := dynamicPass_err agentB.tools text nB idxB eB hfailB preB postB 0 [] hpreB
    simp [computing_tools, hrag, hsplitB, h]

/-- Claim C2: when all context source queries succeed, the document list
returned by `computing_context` is the concatenation, in source-list
order, of each source's rendered batch in the order the source returned
it, and its length is the sum of the per-source batch lengths. -/
theorem c2_context_concat {R D T : Type} (ops : PayloadOps D)
    (agent : Agent R D T) (prompt : Message) (text : String)
    (hrag : prompt.rag_text = some text)
    (hall : ∀ s ∈ agent.dynamic_context, s.2.topN text s.1 = .ok (okBatch text s)) :
    computing_context ops agent prompt =
      (.ok ((agent.dynamic_context.map
          (fun s => (okBatch text s).map (mkDocument ops))).flatten),
       topNTrace text agent.dynamic_context 0) ∧
    ((agent.dynamic_context.map
        (fun s => (okBatch text s).map (mkDocument ops))).flatten).length =
      (agent.dynamic_context.map (fun s => (okBatch text s).length)).sum := by
  constructor
  · have h := contextFanout_ok ops text agent.dynamic_context 0 [] hall
    simp [computing_context, hrag, h]
  · simp only [List.length_flatten, List.map_map]
    congr 1
    congr 1
    funext s
    simp [Function.comp]

/-- Claim C3: when `computing_tools` succeeds, its output is exactly the
definitions of the found static tools in static-list order followed by the
definitions of the found dynamically retrieved tools in
dynamic-source-then-rank order. -/
theorem c3_tools_order {R D T : Type} (agent : Agent R D T) (prompt : Message)
    (text : String) (hrag : prompt.rag_text = some text)
    (hall : ∀ s ∈ agent.dynamic_tools, s.2.topNIds text s.1 = .ok (okIdsRaw text s)) :
    computing_tools agent prompt =
      (.ok (foundStatic agent.tools text agent.static_tools ++
            foundDynamic agent.tools text agent.dynamic_tools),
       (staticPass agent.tools text agent.static_tools).2 ++
         dynToolsTrace agent.tools text agent.dynamic_tools 0) := by
  have h := dynamicPass_ok agent.tools text agent.dynamic_tools 0 [] hall
  have hst := staticPass_fst agent.tools text agent.static_tools
  simp [computing_tools, hrag, h, hst, foundDynamic, resolveIds_fst]

/-- Claim C6: for every retrieved item, `computing_context` produces a
document whose identifier is the item's identifier, whose text is the
pretty serialization of the payload when it succeeds and otherwise the
payload's default string form, and whose additional-properties map is
empty; moreover every output document has an empty property map. -/
theorem c6_document_shape {R D T : Type} (ops : PayloadOps D)
    (agent : Agent R D T) (prompt : Message) (text : String)
    (hrag : prompt.rag_text = some text)
    (hall : ∀ s ∈ agent.dynamic_context, s.2.topN text s.1 = .ok (okBatch text s)) :
    ∃ out, (computing_context ops agent prompt).1 = .ok out ∧
      (∀ s ∈ agent.dynamic_context, ∀ item ∈ okBatch text s,
        ({ id := item.2.1,
           text := (ops.toStringPretty item.2.2).getD (ops.toStr item.2.2),
           additional_props := [] } : Document) ∈ out) ∧
      (∀ d ∈ out, d.additional_props = []) := by
  have h := contextFanout_ok ops text agent.dynamic_context 0 [] hall
  refine ⟨(agent.dynamic_context.map
      (fun s => (okBatch text s).map (mkDocument ops))).flatten,
    by simp [computing_context, hrag, h], ?_, ?_⟩
  · intro s hs item hitem
    exact List.mem_flatten.mpr
      ⟨(okBatch text s).map (mkDocument ops),
       List.mem_map_of_mem _ hs, List.mem_map_of_mem _ hitem⟩
  · intro d hd
    rcases List.mem_flatten.mp hd with ⟨l, hl, hdl⟩
    rcases List.mem_map.mp hl with ⟨s, _, rfl⟩
    rcases List.mem_map.mp hdl with ⟨item, _, rfl⟩
    rfl

/-- Claim C4: for every prompt whose text extraction yields nothing, both
`computing_context` and `computing_tools` fail with the invalid-prompt
error and their event traces are empty: no retrieval query and no
tool-definition request is ever issued. -/
theorem c4_invalid_prompt_no_io {R D T : Type} (ops : PayloadOps D)
    (agent : Agent R D T) (prompt : Message) (h : prompt.rag_text = none) :
    computing_context ops agent prompt =
      (.error (.RequestError (.inl "Invalid prompt")), []) ∧
    computing_tools agent prompt =
      (.error (.RequestError (.inl "Invalid prompt")), []) := by
  constructor <;> simp [computing_context, computing_tools, h]

/-- Witness for C4 at a concrete textless prompt and a concrete agent. -/
theorem c4_invalid_prompt_no_io_witness :
    computing_context (R := Unit) (D := Unit) (T := Unit)
      ⟨fun _ => none, fun _ => ""⟩ ⟨[], [], [], []⟩ ⟨none⟩ =
      (.error (.RequestError (.inl "Invalid prompt")), []) ∧
    computing_tools (R := Unit) (D := Unit)
      (⟨[], [], [], []⟩ : Agent Unit Unit Unit) ⟨none⟩ =
      (.error (.RequestError (.inl "Invalid prompt")), []) :=
  c4_invalid_prompt_no_io ⟨fun _ => none, fun _ => ""⟩ ⟨[], [], [], []⟩ ⟨none⟩ rfl

/-- Claim C7: both resolvers are pure functions of the prompt, the agent
configuration, the index responses and the registry: two calls on the same
inputs return identical results and traces. -/
theorem c7_deterministic {R D T : Type} (ops : PayloadOps D)
    (agent : Agent R D T) (prompt : Message) :
    computing_context ops agent prompt = computing_context ops agent prompt ∧
    computing_tools agent prompt = computing_tools agent prompt :=
  ⟨rfl, rfl⟩

/-- Claim C8: empty configuration is never an error: with no context
sources `computing_context` returns `ok []`, and with no static tools and
no dynamic-tool sources `computing_tools` returns `ok []`. -/
theorem c8_empty_config_ok {R D T : Type} (ops : PayloadOps D)
    (agent : Agent R D T) (prompt : Message) (text : String)
    (h : prompt.rag_text = some text) :
    (agent.dynamic_context = [] →
      computing_context ops agent prompt = (.ok [], [])) ∧
    (agent.static_tools = [] → agent.dynamic_tools = [] →
      computing_tools agent prompt = (.ok [], [])) := by
  constructor
  · intro hctx
    simp [computing_context, h, hctx, contextFanout]
  · intro hst hdyn
    simp [computing_tools, h, hst, hdyn, staticPass, dynamicPass]

/-- Witness for C8 at a concrete prompt and the empty agent. -/
theorem c8_empty_config_ok_witness :
    computing_context (R := Unit) (D := Unit) (T := Unit)
      ⟨fun _ => none, fun _ => ""⟩ ⟨[], [], [], []⟩ ⟨some "q"⟩ = (.ok [], []) ∧
    computing_tools (R := Unit) (D := Unit)
      (⟨[], [], [], []⟩ : Agent Unit Unit Unit) ⟨some "q"⟩ = (.ok [], []) :=
  ⟨(c8_empty_config_ok (R := Unit) (D := Unit) (T := Unit)
      ⟨fun _ => none, fun _ => ""⟩ ⟨[], [], [], []⟩ ⟨some "q"⟩ "q" rfl).1 rfl,
   (c8_empty_config_ok (R := Unit) (D := Unit) (T := Unit)
      ⟨fun _ => none, fun _ => ""⟩ ⟨[], [], [], []⟩ ⟨some "q"⟩ "q" rfl).2 rfl rfl⟩

/-- Claim C5: an unregistered tool name in the static list, or an
unregistered identifier returned by dynamic retrieval, produces no output
entry and only a non-fatal warning; resolution continues and every later
registered name or identifier still contributes its definition — in
particular `computing_tools` still succeeds, with an output equal to that
of the configuration without the missing name. -/
theorem c5_missing_tool_nonfatal {R D T : Type} (tools : ToolSet T)
    (text bad : String) (hbad : ToolSet.get tools bad = none)
    (pre post ids1 ids2 : List String)
    (agent : Agent R D T) (prompt : Message)
    (htools : agent.tools = tools)
    (hstatic : agent.static_tools = pre ++ bad :: post)
    (hrag : prompt.rag_text = some text)
    (hall : ∀ s ∈ agent.dynamic_tools, s.2.topNIds text s.1 = .ok (okIdsRaw text s)) :
    (staticPass tools text (pre ++ bad :: post)).1 =
      (staticPass tools text (pre ++ post)).1 ∧
    Event.warnMissing bad ∈ (staticPass tools text (pre ++ bad :: post)).2 ∧
    (resolveIds tools text (ids1 ++ bad :: ids2)).1 =
      (resolveIds tools text (ids1 ++ ids2)).1 ∧
    Event.warnMissing bad ∈ (resolveIds tools text (ids1 ++ bad :: ids2)).2 ∧
    (computing_tools agent prompt).1 =
      .ok (foundStatic tools text (pre ++ post) ++
           foundDynamic tools text agent.dynamic_tools) := by
  refine ⟨?_, staticPass_warn tools text bad hbad pre post, ?_,
    resolveIds_warn tools text bad hbad ids1 ids2, ?_⟩
  · simp [staticPass_fst, foundStatic, hbad]
  · simp [resolveIds_fst, hbad]
  · subst htools
    have h := dynamicPass_ok agent.tools text agent.dynamic_tools 0 [] hall
    simp [computing_tools, hrag, h, hstatic, staticPass_fst, foundDynamic,
      resolveIds_fst, foundStatic, hbad]

/-- Claim C9: `computing_tools` performs no deduplication: with static
list `["search"]`, a registry containing `"search"`, and one dynamic
source retrieving the identifier `"search"`, the tool's definition
appears twice in the output, once per occurrence. -/
theorem c9_no_dedup :
    (computing_tools (R := Nat) (D := Unit)
      (⟨["search"], [("search", fun _ => "defSearch")], [],
        [(1, ⟨fun _ _ => .ok [], fun _ _ => .ok [(0, "search")]⟩)]⟩ :
        Agent Nat Unit String)
      ⟨some "q"⟩).1 = .ok ["defSearch", "defSearch"] := by
  rfl

/-- Claim C10: the rank component of index responses is discarded: two
configurations whose sources agree on identifiers, payloads and order and
differ only in rank values give identical results and traces for both
resolvers, on every prompt. -/
theorem c10_rank_discarded {R D T : Type} (ops : PayloadOps D)
    (st : List String) (tools : ToolSet T)
    (ctx ctx' dynT dynT' : List (Nat × VectorIndex R D)) (prompt : Message)
    (hctx : List.Forall₂ SameButRank ctx ctx')
    (hdyn : List.Forall₂ SameButRank dynT dynT') :
    computing_context ops (⟨st, tools, ctx, dynT⟩ : Agent R D T) prompt =
      computing_context ops ⟨st, tools, ctx', dynT'⟩ prompt ∧
    computing_tools (⟨st, tools, ctx, dynT⟩ : Agent R D T) prompt =
      computing_tools ⟨st, tools, ctx', dynT'⟩ prompt := by
  constructor
  · cases hrag : prompt.rag_text with
    | none => simp [computing_context, hrag]
    | some text =>
      simp [computing_context, hrag, contextFanout_congr ops text hctx 0 []]
  · cases hrag : prompt.rag_text with
    | none => simp [computing_tools, hrag]
    | some text =>
      simp [computing_tools, hrag, dynamicPass_congr tools text hdyn 0 []]

/-- Witness for C1: one succeeding source followed by a failing one, for
both resolvers, at a concrete agent and prompt. -/
theorem c1_fail_fast_witness :
    computing_context opsEx
      (⟨[], [], [(2, idxOk), (1, idxBad)], []⟩ : Agent Nat String String)
      ⟨some "q"⟩ =
      (.error (.RequestError (.inr (.DatastoreError "boom"))),
       [Event.topN 0 "q" 2, Event.topN 1 "q" 1]) ∧
    computing_tools
      (⟨["calc"], toolsEx, [], [(2, idxOk), (1, idxBad)]⟩ : Agent Nat String String)
      ⟨some "q"⟩ =
      (.error (.RequestError (.inr (.DatastoreError "boom"))),
       [Event.toolDef "calc" "q", Event.topNIds 0 "q" 2, Event.toolDef "ta" "q",
        Event.warnMissing "tb", Event.topNIds 1 "q" 1]) :=
  c1_fail_fast opsEx
    ⟨[], [], [(2, idxOk), (1, idxBad)], []⟩
    ⟨["calc"], toolsEx, [], [(2, idxOk), (1, idxBad)]⟩ ⟨some "q"⟩ "q" rfl
    1 idxBad (.DatastoreError "boom") [(2, idxOk)] [] rfl
    (by intro s hs; fin_cases hs; rfl) rfl
    1 idxBad (.DatastoreError "boom") [(2, idxOk)] [] rfl
    (by intro s hs; fin_cases hs; rfl) rfl

/-- Witness for C2: two succeeding context sources at a concrete agent and
prompt; the output is their rendered batches concatenated in source
order. -/
theorem c2_context_concat_witness :
    computing_context opsEx
      (⟨[], [], [(2, idxOk), (1, idxOk7)], []⟩ : Agent Nat String String)
      ⟨some "q"⟩ =
      (.ok [⟨"a", "pretty pa", []⟩, ⟨"b", "pretty pb", []⟩,
            ⟨"a", "pretty pa", []⟩, ⟨"b", "pretty pb", []⟩],
       [Event.topN 0 "q" 2, Event.topN 1 "q" 1]) :=
  (c2_context_concat opsEx ⟨[], [], [(2, idxOk), (1, idxOk7)], []⟩
    ⟨some "q"⟩ "q" rfl (by intro s hs; fin_cases hs <;> rfl)).1

/-- Witness for C3: a static list with one found and one missing name, and
one dynamic source with one found and one missing identifier, at a
concrete agent and prompt. -/
theorem c3_tools_order_witness :
    computing_tools
      (⟨["calc", "ghost"], toolsEx, [], [(2, idxOk)]⟩ : Agent Nat String String)
      ⟨some "q"⟩ =
      (.ok ["defCalc", "defA q"],
       [Event.toolDef "calc" "q", Event.warnMissing "ghost",
        Event.topNIds 0 "q" 2, Event.toolDef "ta" "q", Event.warnMissing "tb"]) :=
  c3_tools_order ⟨["calc", "ghost"], toolsEx, [], [(2, idxOk)]⟩ ⟨some "q"⟩ "q"
    rfl (by intro s hs; fin_cases hs; rfl)

/-- Witness for C5: the unregistered name `"ghost"` in the middle of the
static list and among retrieved identifiers, at a concrete registry,
agent and prompt. -/
theorem c5_missing_tool_nonfatal_witness :
    (staticPass toolsEx "q" (["calc"] ++ "ghost" :: ["ta"])).1 =
      (staticPass toolsEx "q" (["calc"] ++ ["ta"])).1 ∧
    Event.warnMissing "ghost" ∈ (staticPass toolsEx "q" (["calc"] ++ "ghost" :: ["ta"])).2 ∧
    (resolveIds toolsEx "q" (["ta"] ++ "ghost" :: ["tb"])).1 =
      (resolveIds toolsEx "q" (["ta"] ++ ["tb"])).1 ∧
    Event.warnMissing "ghost" ∈ (resolveIds toolsEx "q" (["ta"] ++ "ghost" :: ["tb"])).2 ∧
    (computing_tools
      (⟨["calc", "ghost", "ta"], toolsEx, [], [(2, idxOk)]⟩ : Agent Nat String String)
      ⟨some "q"⟩).1 =
      .ok (foundStatic toolsEx "q" (["calc"] ++ ["ta"]) ++
           foundDynamic toolsEx "q" [(2, idxOk)]) :=
  c5_missing_tool_nonfatal toolsEx "q" "ghost" rfl ["calc"] ["ta"] ["ta"] ["tb"]
    ⟨["calc", "ghost", "ta"], toolsEx, [], [(2, idxOk)]⟩ ⟨some "q"⟩ rfl rfl rfl
    (by intro s hs; fin_cases hs; rfl)

/-- Witness for C6: one succeeding context source at a concrete agent and
prompt; every retrieved item yields its rendered document with an empty
property map. -/
theorem c6_document_shape_witness :
    ∃ out,
      (computing_context opsEx
        (⟨[], [], [(1, idxOk)], []⟩ : Agent Nat String String) ⟨some "q"⟩).1 =
        .ok out ∧
      (∀ s ∈ (⟨[], [], [(1, idxOk)], []⟩ : Agent Nat String String).dynamic_context,
        ∀ item ∈ okBatch "q" s,
        ({ id := item.2.1,
           text := (opsEx.toStringPretty item.2.2).getD (opsEx.toStr item.2.2),
           additional_props := [] } : Document) ∈ out) ∧
      (∀ d ∈ out, d.additional_props = []) :=
  c6_document_shape opsEx ⟨[], [], [(1, idxOk)], []⟩ ⟨some "q"⟩ "q" rfl
    (by intro s hs; fin_cases hs; rfl)

/-- Witness for C10: the same configuration with ranks `1, 2` versus ranks
`7, 9` on both source lists gives identical resolver results at a concrete
prompt. -/
theorem c10_rank_discarded_witness :
    computing_context opsEx
      (⟨["calc"], toolsEx, [(2, idxOk)], [(1, idxOk)]⟩ : Agent Nat String String)
      ⟨some "q"⟩ =
      computing_context opsEx
        (⟨["calc"], toolsEx, [(2, idxOk7)], [(1, idxOk7)]⟩ : Agent Nat String String)
        ⟨some "q"⟩ ∧
    computing_tools
      (⟨["calc"], toolsEx, [(2, idxOk)], [(1, idxOk)]⟩ : Agent Nat String String)
      ⟨some "q"⟩ =
      computing_tools
        (⟨["calc"], toolsEx, [(2, idxOk7)], [(1, idxOk7)]⟩ : Agent Nat String String)
        ⟨some "q"⟩ :=
  c10_rank_discarded opsEx ["calc"] toolsEx [(2, idxOk)] [(2, idxOk7)]
    [(1, idxOk)] [(1, idxOk7)] ⟨some "q"⟩
    (List.Forall₂.cons ⟨rfl, fun _ _ => rfl, fun _ _ => rfl⟩ List.Forall₂.nil)
    (List.Forall₂.cons ⟨rfl, fun _ _ => rfl, fun _ _ => rfl⟩ List.Forall₂.nil)

end Rig
